import Mathlib

/-!
Verification of the batch LaTeX-to-PDF/DOCX orchestration core of the
tex-to-pdf-word-converter repository (two Python variants: texpro.py and
latex_converter_app.py), via a shallow embedding.

Modelling conventions:
* Python text values are embedded as `List Char` (`Text`); byte strings as
  `List Nat` (`Bytes`).
* The external world (subprocess launches, the scratch directory's file
  system) is an explicit `Env` oracle: `Env.run` maps a command line to the
  outcome of `subprocess.run` on it — either a completed process (return
  code plus decoded stdout/stderr) or a raised exception
  (`subprocess.TimeoutExpired`, or any other `Exception` with its message),
  exactly the cases distinguished by the sources' `try/except` blocks.
  `Env.pdfExists`/`Env.pdfBytes` (resp. docx) describe the workspace files
  the code probes after each phase.
* Fallible Python code is embedded with `Except`; code whose `try/except`
  catches every exception is embedded as a total function.
-/

namespace TexConv

/-- Python text, embedded as a list of characters. -/
abbrev Text := List Char

/-- Python bytes, embedded as a list of byte values. -/
abbrev Bytes := List Nat

/-- Coerce a Lean string literal to the `Text` embedding. -/
def str (s : String) : Text := s.toList

/-! ## ErrorExtractor: `extract_latex_error` (texpro.py lines 47-53)

The source runs `re.search(r"! (.*?)\n", log_text)`.  Semantics of that
regex search: the match starts at the leftmost position holding the
two-character marker `"! "` such that a line break occurs later in the
text; since `.` does not match a line break, the lazy group captures
exactly the characters between the marker and the first following line
break. -/

/-- Attempt of the regex `"! (.*?)\n"` to match at the head of `t`:
succeeds when `t` starts with the marker and a line break exists in the
rest, capturing everything up to (not including) that line break. -/
def bangMatchAt : Text → Option Text
  | c1 :: c2 :: rest =>
    if c1 = '!' ∧ c2 = ' ' then
      if rest.any (fun c => c == '\n') then
        some (rest.takeWhile (fun c => c != '\n'))
      else none
    else none
  | _ => none

/-- `re.search` of `"! (.*?)\n"`: try each start position left to right. -/
def reSearchBang : Text → Option Text
  | [] => none
  | c :: rest =>
    match bangMatchAt (c :: rest) with
    | some m => some m
    | none => reSearchBang rest

/-- Embedding of `extract_latex_error` (texpro.py lines 47-53). -/
def extract_latex_error (log_text : Text) : Text :=
  match reSearchBang log_text with
  | some m => str "❌ **Error:** " ++ m
  | none => str "✅ No critical LaTeX error found."

/-- Substring test: does `p` occur contiguously inside `t`? -/
def hasSub (p : Text) : Text → Bool
  | [] => p.isEmpty
  | c :: rest => p.isPrefixOf (c :: rest) || hasSub p rest

/-- Python-style split of a text at each line-break character. -/
def splitNl : Text → List Text
  | [] => [[]]
  | c :: rest =>
    if c = '\n' then [] :: splitNl rest
    else
      match splitNl rest with
      | [] => [[c]]
      | l :: ls => (c :: l) :: ls

/-- Spec-level predicate (claim C1's wording): some line of the text
begins with the marker `"! "`. -/
def hasBangLine (t : Text) : Bool :=
  (splitNl t).any (fun l => (str "! ").isPrefixOf l)

/-! Supporting lemmas about the regex search. -/

theorem bangMatchAt_nil : bangMatchAt [] = none := rfl

theorem bangMatchAt_single (c : Char) : bangMatchAt [c] = none := rfl

theorem bangMatchAt_cons_cons (c1 c2 : Char) (rest : Text) :
    bangMatchAt (c1 :: c2 :: rest) =
      if c1 = '!' ∧ c2 = ' ' then
        if rest.any (fun c => c == '\n') then
          some (rest.takeWhile (fun c => c != '\n'))
        else none
      else none := rfl

theorem bangMatchAt_none_of_not_prefixOf (t : Text)
    (h : (str "! ").isPrefixOf t = false) : bangMatchAt t = none := by
  match t with
  | [] => rfl
  | [c] => rfl
  | c1 :: c2 :: rest =>
    rw [bangMatchAt_cons_cons]
    have h' : ¬(c1 = '!' ∧ c2 = ' ') := by
      rintro ⟨h1, h2⟩
      subst h1; subst h2
      rw [show str "! " = ['!', ' '] from rfl] at h
      simp [List.isPrefixOf] at h
    simp [h']

theorem reSearchBang_cons (c : Char) (rest : Text) :
    reSearchBang (c :: rest) =
      match bangMatchAt (c :: rest) with
      | some m => some m
      | none => reSearchBang rest := rfl

/-- If the text holds no line break at all, the regex can never match. -/
theorem reSearchBang_of_no_newline (t : Text)
    (h : t.any (fun c => c == '\n') = false) : reSearchBang t = none := by
  induction t with
  | nil => rfl
  | cons c rest ih =>
    have hrest : rest.any (fun c => c == '\n') = false := by
      simp only [List.any_cons, Bool.or_eq_false_iff] at h
      exact h.2
    have hmatch : bangMatchAt (c :: rest) = none := by
      match c, rest with
      | c, [] => rfl
      | c1, c2 :: rest' =>
        rw [bangMatchAt_cons_cons]
        have : rest'.any (fun c => c == '\n') = false := by
          simp only [List.any_cons, Bool.or_eq_false_iff] at hrest
          exact hrest.2
        simp [this]
    rw [reSearchBang_cons, hmatch]
    exact ih hrest

/-- If the marker `"! "` never occurs, the regex never matches. -/
theorem reSearchBang_of_no_marker (t : Text)
    (h : hasSub (str "! ") t = false) : reSearchBang t = none := by
  induction t with
  | nil => rfl
  | cons c rest ih =>
    simp only [hasSub, Bool.or_eq_false_iff] at h
    rw [reSearchBang_cons, bangMatchAt_none_of_not_prefixOf _ h.1]
    exact ih h.2

/-- Stepping lemma: a text starting with `c :: a'` where `"! "` does not
occur in `c :: a'` cannot match at its head, for any continuation. -/
theorem bangMatchAt_none_of_head_clear (c : Char) (a' s : Text)
    (h : (str "! ").isPrefixOf (c :: a') = false) :
    bangMatchAt (c :: (a' ++ '!' :: ' ' :: s)) = none := by
  match a' with
  | [] =>
    rw [List.nil_append, bangMatchAt_cons_cons]
    simp
  | d :: a'' =>
    rw [List.cons_append, bangMatchAt_cons_cons]
    have h' : ¬(c = '!' ∧ d = ' ') := by
      rintro ⟨h1, h2⟩
      subst h1; subst h2
      rw [show str "! " = ['!', ' '] from rfl] at h
      simp [List.isPrefixOf] at h
    simp [h']

/-- Positive case: the first marker occurrence is matched and captures the
remainder of its line, provided a line break follows. -/
theorem reSearchBang_decomp_newline (a b : Text)
    (ha : hasSub (str "! ") a = false)
    (hb : b.any (fun c => c == '\n') = true) :
    reSearchBang (a ++ '!' :: ' ' :: b) =
      some (b.takeWhile (fun c => c != '\n')) := by
  induction a with
  | nil =>
    rw [List.nil_append, reSearchBang_cons, bangMatchAt_cons_cons]
    simp [hb]
  | cons c a' ih =>
    simp only [hasSub, Bool.or_eq_false_iff] at ha
    rw [List.cons_append, reSearchBang_cons,
      bangMatchAt_none_of_head_clear c a' b ha.1]
    exact ih ha.2

/-- Negative case: a marker with no later line break never matches, even
when it is the first marker of the text. -/
theorem reSearchBang_decomp_no_newline (a b : Text)
    (ha : hasSub (str "! ") a = false)
    (hb : b.any (fun c => c == '\n') = false) :
    reSearchBang (a ++ '!' :: ' ' :: b) = none := by
  induction a with
  | nil =>
    rw [List.nil_append, reSearchBang_cons, bangMatchAt_cons_cons,
      if_pos ⟨rfl, rfl⟩, if_neg (by simp [hb])]
    show reSearchBang (' ' :: b) = none
    rw [reSearchBang_cons,
      bangMatchAt_none_of_not_prefixOf (' ' :: b) (by simp [List.isPrefixOf, str])]
    exact reSearchBang_of_no_newline b hb
  | cons c a' ih =>
    simp only [hasSub, Bool.or_eq_false_iff] at ha
    rw [List.cons_append, reSearchBang_cons,
      bangMatchAt_none_of_head_clear c a' b ha.1]
    exact ih ha.2

/-- The extractor's output is never the empty text. -/
theorem extract_latex_error_ne_nil (t : Text) : extract_latex_error t ≠ [] := by
  unfold extract_latex_error
  match reSearchBang t with
  | some m => simp [str]
  | none => simp [str]

/-! ## ProcessRunner: `run_command` (texpro.py lines 36-45 and
latex_converter_app.py lines 31-41)

A `subprocess.run` invocation either completes (return code plus captured
output, already decoded with `errors="ignore"`) or raises
`subprocess.TimeoutExpired` or some other `Exception`.  The oracle value
of type `Except PyExc (Int × Text × Text)` records which happened. -/

/-- An exception raised by `subprocess.run`, as distinguished by the
sources' `except` clauses. -/
inductive PyExc where
  | timeoutExpired : PyExc
  | other (msg : Text) : PyExc
deriving DecidableEq

/-- Embedding of texpro.py's `run_command` (lines 36-45).  The `cmd`,
`cwd` and `timeout` arguments are consumed by `subprocess.run`, whose
behaviour the `outcome` oracle supplies; the `try/except` then maps every
outcome to a `(success, stdout, stderr)` triple, so the function is total:
no exception reaches the caller. -/
def run_command_texpro (cmd : List Text) (cwd : Text) (timeout : Nat)
    (outcome : Except PyExc (Int × Text × Text)) : Bool × Text × Text :=
  match cmd, cwd, timeout, outcome with
  | _, _, _, Except.ok (rc, out, err) => (rc == 0, out, err)
  | _, _, _, Except.error PyExc.timeoutExpired =>
    (false, [], str "❌ Timeout expired.")
  | _, _, _, Except.error (PyExc.other e) =>
    (false, [], str "❌ Exception: " ++ e)

/-- Embedding of latex_converter_app.py's `run_command` (lines 31-41);
the source text of the two variants is identical. -/
def run_command_app (cmd : List Text) (cwd : Text) (timeout : Nat)
    (outcome : Except PyExc (Int × Text × Text)) : Bool × Text × Text :=
  match cmd, cwd, timeout, outcome with
  | _, _, _, Except.ok (rc, out, err) => (rc == 0, out, err)
  | _, _, _, Except.error PyExc.timeoutExpired =>
    (false, [], str "❌ Timeout expired.")
  | _, _, _, Except.error (PyExc.other e) =>
    (false, [], str "❌ Exception: " ++ e)

/-! ## DocumentCompiler: `compile_latex` -/

/-- The external world seen by one `compile_latex` call: the scratch
directory's path, the behaviour of `subprocess.run` on each command line,
and the state of the probed output files. -/
structure Env where
  run : List Text → Except PyExc (Int × Text × Text)
  tmpdir : Text
  pdfExists : Bool
  pdfBytes : Bytes
  docxExists : Bool
  docxBytes : Bytes

/-- The texpro.py session configuration: tool paths and the flag string
(`st.session_state.miktex_path` / `pandoc_path` / `pdflatex_flags`). -/
structure Config where
  miktex_path : Text
  pandoc_path : Text
  pdflatex_flags : Text

/-- The default session configuration (texpro.py lines 25-30). -/
def default_config : Config :=
  { miktex_path := str "C:\\Program Files\\MiKTeX\\miktex\\bin\\x64\\pdflatex.exe"
    pandoc_path := str "C:\\Program Files\\Pandoc\\pandoc.exe"
    pdflatex_flags := str "-interaction=nonstopmode -halt-on-error" }

/-- Helper of `pySplit`: scan the text, accumulating the current word in
reverse. -/
def pySplitAux : Text → Text → List Text
  | [], acc => if acc.isEmpty then [] else [acc.reverse]
  | c :: rest, acc =>
    if c.isWhitespace then
      if acc.isEmpty then pySplitAux rest []
      else acc.reverse :: pySplitAux rest []
    else pySplitAux rest (c :: acc)

/-- Python `str.split()` with no argument: split at runs of whitespace,
discarding empty fields. -/
def pySplit (t : Text) : List Text := pySplitAux t []

/-- Index of the last `'.'` in a text, if any. -/
def lastDotPos : Text → Option Nat
  | [] => none
  | c :: rest =>
    match lastDotPos rest with
    | some j => some (j + 1)
    | none => if c = '.' then some 0 else none

/-- Python `pathlib` suffix replacement on a file name
(`Path(name).with_suffix(suf).name`): the suffix starts at the last `'.'`
provided that dot is neither the first nor the last character. -/
def with_suffix (name suf : Text) : Text :=
  match lastDotPos name with
  | none => name ++ suf
  | some i =>
    if 0 < i ∧ i < name.length - 1 then name.take i ++ suf else name ++ suf

/-- Python `pathlib` stem of a file name (`Path(name).stem`): the name
with its suffix (as above) removed. -/
def stem (name : Text) : Text :=
  match lastDotPos name with
  | none => name
  | some i =>
    if 0 < i ∧ i < name.length - 1 then name.take i else name

/-- The `CompilationResult` dictionary assembled by texpro.py's
`compile_latex` (line 57). -/
structure Results where
  pdf : Option Bytes
  docx : Option Bytes
  log : Text
  error_summary : Text
deriving DecidableEq

/-- The result dictionary of latex_converter_app.py's `compile_latex`
(line 45), which has no error-summary field. -/
structure ResultsApp where
  pdf : Option Bytes
  docx : Option Bytes
  log : Text
deriving DecidableEq

/-- The pdflatex command line texpro.py builds (line 64-65). -/
def pdf_cmd (cfg : Config) (filename : Text) : List Text :=
  [cfg.miktex_path] ++ pySplit cfg.pdflatex_flags ++ [filename]

/-- The pandoc command line texpro.py builds (line 76). -/
def docx_cmd (cfg : Config) (filename : Text) : List Text :=
  [cfg.pandoc_path, filename, str "-o", with_suffix filename (str ".docx")]

/-- Embedding of texpro.py's `compile_latex` (lines 55-83).  The
scratch-directory creation and source write (lines 58-60) have no
observable effect on the returned dictionary and are part of the `Env`
oracle. -/
def compile_latex_texpro (cfg : Config) (env : Env) (tex_code filename : Text)
    (make_pdf make_docx : Bool) : Results :=
  let results : Results := { pdf := none, docx := none, log := [], error_summary := [] }
  let results :=
    if make_pdf then
      let cmd_pdf := pdf_cmd cfg filename
      let r := run_command_texpro cmd_pdf env.tmpdir 120 (env.run cmd_pdf)
      let ok := r.1
      let out := r.2.1
      let err := r.2.2
      let results := { results with
        log := results.log ++ str "\n--- pdflatex log ---\n" ++ out ++ str "\n" ++ err ++ str "\n" }
      if ok && env.pdfExists then { results with pdf := some env.pdfBytes }
      else { results with error_summary := extract_latex_error (out ++ err) }
    else results
  if make_docx then
    let cmd_docx := docx_cmd cfg filename
    let r := run_command_texpro cmd_docx env.tmpdir 120 (env.run cmd_docx)
    let ok := r.1
    let out := r.2.1
    let err := r.2.2
    let results := { results with
      log := results.log ++ str "\n--- pandoc log ---\n" ++ out ++ str "\n" ++ err ++ str "\n" }
    if ok && env.docxExists then { results with docx := some env.docxBytes }
    else results
  else results

/-- The fixed pdflatex path of latex_converter_app.py (line 21). -/
def MIKTEX_PATH : Text := str "C:\\Program Files\\MiKTeX\\miktex\\bin\\x64\\pdflatex.exe"

/-- The fixed pandoc path of latex_converter_app.py (line 22). -/
def PANDOC_PATH : Text := str "C:\\Program Files\\Pandoc\\pandoc.exe"

/-- The pdflatex command line latex_converter_app.py builds (line 52). -/
def app_pdf_cmd (filename : Text) : List Text :=
  [MIKTEX_PATH, str "-interaction=nonstopmode", str "-halt-on-error", filename]

/-- The pandoc command line latex_converter_app.py builds (line 62). -/
def app_docx_cmd (filename : Text) : List Text :=
  [PANDOC_PATH, filename, str "-o", with_suffix filename (str ".docx")]

/-- Embedding of latex_converter_app.py's `compile_latex` (lines 43-68). -/
def compile_latex_app (env : Env) (tex_code filename : Text)
    (make_pdf make_docx : Bool) : ResultsApp :=
  let results : ResultsApp := { pdf := none, docx := none, log := [] }
  let results :=
    if make_pdf then
      let cmd_pdf := app_pdf_cmd filename
      let r := run_command_app cmd_pdf env.tmpdir 120 (env.run cmd_pdf)
      let ok := r.1
      let out := r.2.1
      let err := r.2.2
      let results := { results with
        log := results.log ++ str "\n--- pdflatex log ---\n" ++ out ++ str "\n" ++ err ++ str "\n" }
      if ok && env.pdfExists then { results with pdf := some env.pdfBytes }
      else results
    else results
  if make_docx then
    let cmd_docx := app_docx_cmd filename
    let r := run_command_app cmd_docx env.tmpdir 120 (env.run cmd_docx)
    let ok := r.1
    let out := r.2.1
    let err := r.2.2
    let results := { results with
      log := results.log ++ str "\n--- pandoc log ---\n" ++ out ++ str "\n" ++ err ++ str "\n" }
    if ok && env.docxExists then { results with docx := some env.docxBytes }
    else results
  else results

/-! ## BatchConverter: `convert_directory` (texpro.py lines 86-104 and
latex_converter_app.py lines 71-90)

The directory scan `path.glob("*.tex")` yields an ordered list of `.tex`
files; each is read with `errors="ignore"` and compiled.  A source
document is embedded as its logical name, its decoded content, and the
`Env` oracle of its (private, per-document) compilation. -/

/-- One discovered `.tex` source document. -/
structure Doc where
  name : Text
  code : Text
  env : Env

/-- A zip archive entry's payload: binary output bytes (`writestr` with
bytes) or log text (`writestr` with text). -/
inductive ZipData where
  | bin (b : Bytes) : ZipData
  | txt (t : Text) : ZipData
deriving DecidableEq

/-- The in-memory archive: entries in the order they were written. -/
abbrev Archive := List (Text × ZipData)

/-- The error `convert_directory` raises on an empty input set
(`FileNotFoundError("No .tex files found in folder.")`) — the spec's
EmptyInput error. -/
inductive ConvError where
  | noTexFiles : ConvError
deriving DecidableEq

/-- The zip entries one loop iteration of texpro.py's `convert_directory`
writes (lines 94-102): a `.pdf` entry when `res["pdf"]` is truthy, a
`.docx` entry when `res["docx"]` is truthy, and always a `.log.txt`
entry. -/
def entriesFor (cfg : Config) (make_pdf make_docx : Bool) (d : Doc) : Archive :=
  let res := compile_latex_texpro cfg d.env d.code d.name make_pdf make_docx
  let base := stem d.name
  (match res.pdf with
   | some b => if b.isEmpty then [] else [(base ++ str ".pdf", ZipData.bin b)]
   | none => []) ++
  (match res.docx with
   | some b => if b.isEmpty then [] else [(base ++ str ".docx", ZipData.bin b)]
   | none => []) ++
  [(base ++ str ".log.txt", ZipData.txt res.log)]

/-- Embedding of texpro.py's `convert_directory` (lines 86-104). -/
def convert_directory_texpro (cfg : Config) (docs : List Doc)
    (make_pdf make_docx : Bool) : Except ConvError Archive :=
  if docs.isEmpty then Except.error ConvError.noTexFiles
  else Except.ok
    (docs.foldl (fun acc d => acc ++ entriesFor cfg make_pdf make_docx d) [])

/-- The loop-iteration entries of latex_converter_app.py's
`convert_directory` (lines 80-88). -/
def entriesForApp (make_pdf make_docx : Bool) (d : Doc) : Archive :=
  let result := compile_latex_app d.env d.code d.name make_pdf make_docx
  let base := stem d.name
  (match result.pdf with
   | some b => if b.isEmpty then [] else [(base ++ str ".pdf", ZipData.bin b)]
   | none => []) ++
  (match result.docx with
   | some b => if b.isEmpty then [] else [(base ++ str ".docx", ZipData.bin b)]
   | none => []) ++
  [(base ++ str ".log.txt", ZipData.txt result.log)]

/-- Embedding of latex_converter_app.py's `convert_directory`
(lines 71-90). -/
def convert_directory_app (docs : List Doc) (make_pdf make_docx : Bool) :
    Except ConvError Archive :=
  if docs.isEmpty then Except.error ConvError.noTexFiles
  else Except.ok
    (docs.foldl (fun acc d => acc ++ entriesForApp make_pdf make_docx d) [])

/-- Python truthiness of an optional bytes value: `None` and `b""` are
falsy. -/
def pyTruthy : Option Bytes → Bool
  | none => false
  | some b => !b.isEmpty

/-- The bytes held by an optional bytes value (empty for `None`). -/
def optBytes : Option Bytes → Bytes
  | none => []
  | some b => b

/-! ### Concrete fixtures used by witnesses and counterexamples. -/

/-- An environment whose subprocess runs exit 0 with empty output but in
which no output file ever appears. -/
def okEnvNoPdf : Env :=
  { run := fun _ => Except.ok (0, [], [])
    tmpdir := []
    pdfExists := false
    pdfBytes := []
    docxExists := false
    docxBytes := [] }

/-- An environment in which every subprocess launch raises an exception. -/
def failEnv : Env :=
  { run := fun _ => Except.error (PyExc.other (str "boom"))
    tmpdir := []
    pdfExists := false
    pdfBytes := []
    docxExists := false
    docxBytes := [] }

/-- An environment whose pdflatex run succeeds and leaves behind an empty
`.pdf` file. -/
def emptyPdfEnv : Env :=
  { run := fun _ => Except.ok (0, [], [])
    tmpdir := []
    pdfExists := true
    pdfBytes := []
    docxExists := false
    docxBytes := [] }

/-- A document whose compilation produces a present but empty PDF. -/
def emptyPdfDoc : Doc :=
  { name := str "a.tex", code := str "x", env := emptyPdfEnv }

/-- A plain sample document compiled in `okEnvNoPdf`. -/
def sampleDoc : Doc :=
  { name := str "sample.tex", code := str "hello", env := okEnvNoPdf }

/-! ### Characterization lemmas for the two `compile_latex` variants. -/

/-- The outcome triple of the texpro pdflatex invocation. -/
def pdfRun (cfg : Config) (env : Env) (fn : Text) : Bool × Text × Text :=
  run_command_texpro (pdf_cmd cfg fn) env.tmpdir 120 (env.run (pdf_cmd cfg fn))

/-- The outcome triple of the texpro pandoc invocation. -/
def docxRun (cfg : Config) (env : Env) (fn : Text) : Bool × Text × Text :=
  run_command_texpro (docx_cmd cfg fn) env.tmpdir 120 (env.run (docx_cmd cfg fn))

/-- The outcome triple of the app variant's pdflatex invocation. -/
def pdfRunApp (env : Env) (fn : Text) : Bool × Text × Text :=
  run_command_app (app_pdf_cmd fn) env.tmpdir 120 (env.run (app_pdf_cmd fn))

/-- The outcome triple of the app variant's pandoc invocation. -/
def docxRunApp (env : Env) (fn : Text) : Bool × Text × Text :=
  run_command_app (app_docx_cmd fn) env.tmpdir 120 (env.run (app_docx_cmd fn))

/-- Closed form of texpro.py's `compile_latex`: each field as a function
of the two phase outcomes and the workspace file states. -/
theorem compile_latex_texpro_eq (cfg : Config) (env : Env) (tex fn : Text)
    (mp md : Bool) :
    compile_latex_texpro cfg env tex fn mp md =
      { pdf := if mp then
          (if (pdfRun cfg env fn).1 && env.pdfExists then some env.pdfBytes else none)
          else none
        docx := if md then
          (if (docxRun cfg env fn).1 && env.docxExists then some env.docxBytes else none)
          else none
        log :=
          (if mp then
            str "\n--- pdflatex log ---\n" ++ (pdfRun cfg env fn).2.1 ++ str "\n" ++
              (pdfRun cfg env fn).2.2 ++ str "\n"
            else []) ++
          (if md then
            str "\n--- pandoc log ---\n" ++ (docxRun cfg env fn).2.1 ++ str "\n" ++
              (docxRun cfg env fn).2.2 ++ str "\n"
            else [])
        error_summary := if mp && !((pdfRun cfg env fn).1 && env.pdfExists) then
          extract_latex_error ((pdfRun cfg env fn).2.1 ++ (pdfRun cfg env fn).2.2)
          else [] } := by
  cases mp <;> cases md <;>
    cases hp : (run_command_texpro (pdf_cmd cfg fn) env.tmpdir 120
      (env.run (pdf_cmd cfg fn))).1 && env.pdfExists <;>
    cases hq : (run_command_texpro (docx_cmd cfg fn) env.tmpdir 120
      (env.run (docx_cmd cfg fn))).1 && env.docxExists <;>
    simp [compile_latex_texpro, pdfRun, docxRun, hp, hq]

/-- Closed form of latex_converter_app.py's `compile_latex`. -/
theorem compile_latex_app_eq (env : Env) (tex fn : Text) (mp md : Bool) :
    compile_latex_app env tex fn mp md =
      { pdf := if mp then
          (if (pdfRunApp env fn).1 && env.pdfExists then some env.pdfBytes else none)
          else none
        docx := if md then
          (if (docxRunApp env fn).1 && env.docxExists then some env.docxBytes else none)
          else none
        log :=
          (if mp then
            str "\n--- pdflatex log ---\n" ++ (pdfRunApp env fn).2.1 ++ str "\n" ++
              (pdfRunApp env fn).2.2 ++ str "\n"
            else []) ++
          (if md then
            str "\n--- pandoc log ---\n" ++ (docxRunApp env fn).2.1 ++ str "\n" ++
              (docxRunApp env fn).2.2 ++ str "\n"
            else []) } := by
  cases mp <;> cases md <;>
    cases hp : (run_command_app (app_pdf_cmd fn) env.tmpdir 120
      (env.run (app_pdf_cmd fn))).1 && env.pdfExists <;>
    cases hq : (run_command_app (app_docx_cmd fn) env.tmpdir 120
      (env.run (app_docx_cmd fn))).1 && env.docxExists <;>
    simp [compile_latex_app, pdfRunApp, docxRunApp, hp, hq]

/-! ## Claim theorems -/

/-- C1 counterexample: the log text `"x ! y\n"` has no line beginning
with the marker `"! "`, yet `extract_latex_error` does not return the
fixed no-error string (the regex matches the marker mid-line), refuting
the claim as stated. -/
theorem extract_latex_error_counterexample :
    hasBangLine (str "x ! y\n") = false ∧
    extract_latex_error (str "x ! y\n") ≠ str "✅ No critical LaTeX error found." := by
  decide

/-- C1 (amended): `extract_latex_error` keys on the first occurrence of
the two-character marker `"! "` anywhere in the text (not only at a line
start).  If a line break follows that first occurrence, it returns the
error string carrying exactly the characters between the marker and the
next line break; if no line break follows it, or the marker never occurs,
it returns the fixed no-error string.  Only the first occurrence is
used. -/
theorem extract_latex_error_first_marker :
    (∀ t : Text, hasSub (str "! ") t = false →
      extract_latex_error t = str "✅ No critical LaTeX error found.") ∧
    (∀ a b : Text, hasSub (str "! ") a = false →
      b.any (fun c => c == '\n') = false →
      extract_latex_error (a ++ str "! " ++ b) =
        str "✅ No critical LaTeX error found.") ∧
    (∀ a b : Text, hasSub (str "! ") a = false →
      b.any (fun c => c == '\n') = true →
      extract_latex_error (a ++ str "! " ++ b) =
        str "❌ **Error:** " ++ b.takeWhile (fun c => c != '\n')) := by
  refine ⟨?_, ?_, ?_⟩
  · intro t h
    unfold extract_latex_error
    rw [reSearchBang_of_no_marker t h]
  · intro a b ha hb
    have harg : a ++ str "! " ++ b = a ++ '!' :: ' ' :: b := by
      rw [show str "! " = ['!', ' '] from rfl, List.append_assoc]
      rfl
    rw [harg]
    unfold extract_latex_error
    rw [reSearchBang_decomp_no_newline a b ha hb]
  · intro a b ha hb
    have harg : a ++ str "! " ++ b = a ++ '!' :: ' ' :: b := by
      rw [show str "! " = ['!', ' '] from rfl, List.append_assoc]
      rfl
    rw [harg]
    unfold extract_latex_error
    rw [reSearchBang_decomp_newline a b ha hb]

/-- C1 witness: the amended theorem applied to two concrete log texts. -/
theorem extract_latex_error_first_marker_witness :
    extract_latex_error (str "abc\n") = str "✅ No critical LaTeX error found." ∧
    extract_latex_error (str "abc\n" ++ str "! " ++ str "Oops\nmore") =
      str "❌ **Error:** " ++ (str "Oops\nmore").takeWhile (fun c => c != '\n') :=
  ⟨extract_latex_error_first_marker.1 (str "abc\n") (by decide),
    extract_latex_error_first_marker.2.2 (str "abc\n") (str "Oops\nmore")
      (by decide) (by decide)⟩

/-- C2 counterexample: with a pdflatex run that exits 0 but leaves no
`.pdf` file in the workspace, the typesetting run succeeded and yet the
error-summary field is set (to the extractor's no-error string), refuting
the claimed equivalence with run failure. -/
theorem compile_latex_error_summary_counterexample :
    (run_command_texpro (pdf_cmd default_config (str "doc.tex")) [] 120
      (okEnvNoPdf.run (pdf_cmd default_config (str "doc.tex")))).1 = true ∧
    (compile_latex_texpro default_config okEnvNoPdf (str "hello") (str "doc.tex")
      true false).error_summary ≠ [] := by
  decide

/-- C2 (amended): with wantPdf true, the error-summary field is set, via
`extract_latex_error` over the concatenated stdout and stderr of the
typesetting run, exactly when NOT (the run succeeded AND the `.pdf` file
exists in the workspace); only when the run succeeded and the file exists
is the field left empty. -/
theorem compile_latex_error_summary_iff (cfg : Config) (env : Env) (tex fn : Text)
    (md : Bool) :
    (compile_latex_texpro cfg env tex fn true md).error_summary =
      if (pdfRun cfg env fn).1 && env.pdfExists then []
      else extract_latex_error ((pdfRun cfg env fn).2.1 ++ (pdfRun cfg env fn).2.2) := by
  rw [compile_latex_texpro_eq]
  cases hp : (pdfRun cfg env fn).1 && env.pdfExists <;> simp [hp]

/-- C4: a timed-out process yields exactly
`(succeeded := false, stdout := "", stderr := the fixed timeout notice)`;
any other launch failure yields `(false, "", a description of it)`; a
completed process yields its exit-code test and decoded output.  The
match is total over every `subprocess.run` outcome, so no exception
reaches the caller; this holds for the `run_command` of both source
variants. -/
theorem run_command_failure_modes :
    (∀ (cmd : List Text) (cwd : Text) (t : Nat),
      run_command_texpro cmd cwd t (Except.error PyExc.timeoutExpired) =
        (false, [], str "❌ Timeout expired.")) ∧
    (∀ (cmd : List Text) (cwd : Text) (t : Nat) (m : Text),
      run_command_texpro cmd cwd t (Except.error (PyExc.other m)) =
        (false, [], str "❌ Exception: " ++ m)) ∧
    (∀ (cmd : List Text) (cwd : Text) (t : Nat) (rc : Int) (out err : Text),
      run_command_texpro cmd cwd t (Except.ok (rc, out, err)) = (rc == 0, out, err)) ∧
    (∀ (cmd : List Text) (cwd : Text) (t : Nat),
      run_command_app cmd cwd t (Except.error PyExc.timeoutExpired) =
        (false, [], str "❌ Timeout expired.")) ∧
    (∀ (cmd : List Text) (cwd : Text) (t : Nat) (m : Text),
      run_command_app cmd cwd t (Except.error (PyExc.other m)) =
        (false, [], str "❌ Exception: " ++ m)) ∧
    (∀ (cmd : List Text) (cwd : Text) (t : Nat) (rc : Int) (out err : Text),
      run_command_app cmd cwd t (Except.ok (rc, out, err)) = (rc == 0, out, err)) :=
  ⟨fun _ _ _ => rfl, fun _ _ _ _ => rfl, fun _ _ _ _ _ _ => rfl,
    fun _ _ _ => rfl, fun _ _ _ _ => rfl, fun _ _ _ _ _ _ => rfl⟩

/-- C8: with both want-flags false, `compile_latex` returns absent PDF
and DOCX fields and an empty log, in both source variants (and, in the
texpro variant, an empty error summary). -/
theorem compile_latex_nothing_requested :
    (∀ (cfg : Config) (env : Env) (tex fn : Text),
      compile_latex_texpro cfg env tex fn false false =
        { pdf := none, docx := none, log := [], error_summary := [] }) ∧
    (∀ (env : Env) (tex fn : Text),
      compile_latex_app env tex fn false false =
        { pdf := none, docx := none, log := [] }) :=
  ⟨fun _ _ _ _ => rfl, fun _ _ _ => rfl⟩

/-! ### Helpers for the batch claims. -/

/-- Left fold of appends equals the flattened map: the archive built
incrementally by the loop is the concatenation of the per-document entry
blocks, in input order. -/
theorem foldl_append_flatten {α β : Type} (f : α → List β) (l : List α)
    (init : List β) :
    l.foldl (fun acc a => acc ++ f a) init = init ++ (l.map f).flatten := by
  induction l generalizing init with
  | nil => simp
  | cons a l ih => simp [List.foldl_cons, ih, List.append_assoc]

theorem lastDotPos_append_tex (b : Text) :
    lastDotPos (b ++ str ".tex") = some b.length := by
  induction b with
  | nil => rfl
  | cons c b ih =>
    rw [List.cons_append]
    simp [lastDotPos, ih]

/-- For a nonempty base, `Path(name).stem` of `base ++ ".tex"` is the
base: the source suffix is stripped. -/
theorem stem_tex (b : Text) (hb : b ≠ []) : stem (b ++ str ".tex") = b := by
  have hlen : (b ++ str ".tex").length = b.length + 4 := by simp [str]
  have h0 : 0 < b.length := List.length_pos.mpr hb
  unfold stem
  rw [lastDotPos_append_tex]
  show (if 0 < b.length ∧ b.length < (b ++ str ".tex").length - 1 then
    List.take b.length (b ++ str ".tex") else b ++ str ".tex") = b
  rw [if_pos ⟨h0, by rw [hlen]; omega⟩]
  exact List.take_left b (str ".tex")

/-- The entry block one texpro loop iteration writes, in terms of Python
truthiness of the result fields and the stripped base name. -/
theorem entriesFor_eq (cfg : Config) (mp md : Bool) (d : Doc) (b : Text)
    (hb : b ≠ []) (hn : d.name = b ++ str ".tex") :
    entriesFor cfg mp md d =
      (if pyTruthy (compile_latex_texpro cfg d.env d.code d.name mp md).pdf then
        [(b ++ str ".pdf",
          ZipData.bin (optBytes (compile_latex_texpro cfg d.env d.code d.name mp md).pdf))]
        else []) ++
      (if pyTruthy (compile_latex_texpro cfg d.env d.code d.name mp md).docx then
        [(b ++ str ".docx",
          ZipData.bin (optBytes (compile_latex_texpro cfg d.env d.code d.name mp md).docx))]
        else []) ++
      [(b ++ str ".log.txt",
        ZipData.txt (compile_latex_texpro cfg d.env d.code d.name mp md).log)] := by
  unfold entriesFor
  rw [hn, stem_tex b hb]
  rcases hpdf : (compile_latex_texpro cfg d.env d.code (b ++ str ".tex") mp md).pdf
      with _ | bs <;>
    rcases hdocx : (compile_latex_texpro cfg d.env d.code (b ++ str ".tex") mp md).docx
      with _ | bs2 <;>
    simp [pyTruthy, optBytes, hpdf, hdocx]

/-- C3 counterexample: a document whose typesetting run exits 0 and
leaves an empty `.pdf` file has a present PDF field (`some b""`), yet the
archive holds no `a.pdf` entry — only the log entry — because the loop
tests Python truthiness, not presence.  This refutes "an entry
`<base>.pdf` exactly when the document's PDF field is present". -/
theorem convert_directory_empty_pdf_counterexample :
    (compile_latex_texpro default_config emptyPdfEnv (str "x") (str "a.tex")
      true false).pdf = some [] ∧
    convert_directory_texpro default_config [emptyPdfDoc] true false =
      Except.ok [(str "a.log.txt", ZipData.txt (str "\n--- pdflatex log ---\n\n\n"))] :=
  ⟨by decide, rfl⟩

/-- C3 (amended): for every non-empty document sequence,
`convert_directory` returns the archive obtained by concatenating, in
input order, one entry block per document — so no document's failure
prevents the remaining documents from being processed — and each
document's block consists of exactly one `<base>.log.txt` entry holding
that document's full log, preceded by a `<base>.pdf` entry exactly when
the PDF field is present AND non-empty, and a `<base>.docx` entry exactly
when the DOCX field is present AND non-empty (Python truthiness), where
`<base>` is the logical name with its `.tex` suffix stripped. -/
theorem convert_directory_archive_spec (cfg : Config) (mp md : Bool)
    (docs : List Doc) (hne : docs ≠ []) :
    convert_directory_texpro cfg docs mp md =
      Except.ok ((docs.map (entriesFor cfg mp md)).flatten) ∧
    ∀ d b, b ≠ [] → d.name = b ++ str ".tex" →
      entriesFor cfg mp md d =
        (if pyTruthy (compile_latex_texpro cfg d.env d.code d.name mp md).pdf then
          [(b ++ str ".pdf",
            ZipData.bin (optBytes (compile_latex_texpro cfg d.env d.code d.name mp md).pdf))]
          else []) ++
        (if pyTruthy (compile_latex_texpro cfg d.env d.code d.name mp md).docx then
          [(b ++ str ".docx",
            ZipData.bin (optBytes (compile_latex_texpro cfg d.env d.code d.name mp md).docx))]
          else []) ++
        [(b ++ str ".log.txt",
          ZipData.txt (compile_latex_texpro cfg d.env d.code d.name mp md).log)] := by
  constructor
  · unfold convert_directory_texpro
    rw [if_neg (by simp [hne]), foldl_append_flatten]
    simp
  · intro d b hb hn
    exact entriesFor_eq cfg mp md d b hb hn

/-- C3 witness: the amended theorem applied to the one-document batch
`[sampleDoc]` with base `"sample"`. -/
theorem convert_directory_archive_spec_witness :
    convert_directory_texpro default_config [sampleDoc] true true =
      Except.ok (([sampleDoc].map (entriesFor default_config true true)).flatten) ∧
    entriesFor default_config true true sampleDoc =
      (if pyTruthy (compile_latex_texpro default_config sampleDoc.env sampleDoc.code
          sampleDoc.name true true).pdf then
        [(str "sample" ++ str ".pdf",
          ZipData.bin (optBytes (compile_latex_texpro default_config sampleDoc.env
            sampleDoc.code sampleDoc.name true true).pdf))]
        else []) ++
      (if pyTruthy (compile_latex_texpro default_config sampleDoc.env sampleDoc.code
          sampleDoc.name true true).docx then
        [(str "sample" ++ str ".docx",
          ZipData.bin (optBytes (compile_latex_texpro default_config sampleDoc.env
            sampleDoc.code sampleDoc.name true true).docx))]
        else []) ++
      [(str "sample" ++ str ".log.txt",
        ZipData.txt (compile_latex_texpro default_config sampleDoc.env sampleDoc.code
          sampleDoc.name true true).log)] := by
  have h := convert_directory_archive_spec default_config true true [sampleDoc] (by simp)
  exact ⟨h.1, h.2 sampleDoc (str "sample") (by decide) (by decide)⟩

/-- C5: `convert_directory` fails with the no-input error (the spec's
EmptyInput, raised as `FileNotFoundError`) if and only if the document
list is empty, in which case no archive value exists; on any non-empty
input it returns an archive and not that error.  Both variants. -/
theorem convert_directory_empty_input (cfg : Config) (docs : List Doc)
    (mp md : Bool) :
    (convert_directory_texpro cfg docs mp md = Except.error ConvError.noTexFiles ↔
      docs = []) ∧
    (docs ≠ [] → ∃ archive,
      convert_directory_texpro cfg docs mp md = Except.ok archive) ∧
    (convert_directory_app docs mp md = Except.error ConvError.noTexFiles ↔
      docs = []) ∧
    (docs ≠ [] → ∃ archive, convert_directory_app docs mp md = Except.ok archive) := by
  by_cases h : docs = []
  · subst h
    refine ⟨⟨fun _ => rfl, fun _ => rfl⟩, fun hne => absurd rfl hne,
      ⟨fun _ => rfl, fun _ => rfl⟩, fun hne => absurd rfl hne⟩
  · have hne : ¬(docs.isEmpty = true) := by simp [h]
    have ht : convert_directory_texpro cfg docs mp md =
        Except.ok (docs.foldl (fun acc d => acc ++ entriesFor cfg mp md d) []) := by
      unfold convert_directory_texpro
      rw [if_neg hne]
    have ha : convert_directory_app docs mp md =
        Except.ok (docs.foldl (fun acc d => acc ++ entriesForApp mp md d) []) := by
      unfold convert_directory_app
      rw [if_neg hne]
    refine ⟨⟨fun hc => ?_, fun he => absurd he h⟩, fun _ => ⟨_, ht⟩,
      ⟨fun hc => ?_, fun he => absurd he h⟩, fun _ => ⟨_, ha⟩⟩
    · rw [ht] at hc; exact Except.noConfusion hc
    · rw [ha] at hc; exact Except.noConfusion hc

/-- C5 witness: the empty batch errors; a one-document batch returns an
archive. -/
theorem convert_directory_empty_input_witness :
    convert_directory_texpro default_config [] true true =
      Except.error ConvError.noTexFiles ∧
    ∃ archive, convert_directory_texpro default_config [sampleDoc] true true =
      Except.ok archive :=
  ⟨(convert_directory_empty_input default_config [] true true).1.mpr rfl,
    (convert_directory_empty_input default_config [sampleDoc] true true).2.1
      (by simp)⟩

/-- C6: `compile_latex` is a total function of its inputs and oracle — in
this embedding every `subprocess.run` failure mode is an `Except` value
the inner `try/except` of `run_command` maps to a triple, so no exception
propagates — and when both tool launches fail, the failure surfaces only
as absent PDF and DOCX fields plus the labeled log blocks and a non-empty
error summary in the returned result. -/
theorem compile_latex_failure_containment (cfg : Config) (env : Env)
    (tex fn : Text) (mp md : Bool)
    (hp : ∃ e, env.run (pdf_cmd cfg fn) = Except.error e)
    (hd : ∃ e, env.run (docx_cmd cfg fn) = Except.error e) :
    (compile_latex_texpro cfg env tex fn mp md).pdf = none ∧
    (compile_latex_texpro cfg env tex fn mp md).docx = none ∧
    (mp = true → (compile_latex_texpro cfg env tex fn mp md).error_summary ≠ []) ∧
    (mp = true → ∃ u v, (compile_latex_texpro cfg env tex fn mp md).log =
      u ++ str "\n--- pdflatex log ---\n" ++ v) ∧
    (md = true → ∃ u v, (compile_latex_texpro cfg env tex fn mp md).log =
      u ++ str "\n--- pandoc log ---\n" ++ v) := by
  obtain ⟨e1, he1⟩ := hp
  obtain ⟨e2, he2⟩ := hd
  have hok1 : (pdfRun cfg env fn).1 = false := by
    unfold pdfRun; rw [he1]; cases e1 <;> rfl
  have hok2 : (docxRun cfg env fn).1 = false := by
    unfold docxRun; rw [he2]; cases e2 <;> rfl
  rw [compile_latex_texpro_eq]
  refine ⟨by simp [hok1], by simp [hok2], fun hmp => ?_, fun hmp => ?_, fun hmd => ?_⟩
  · simp [hmp, hok1, extract_latex_error_ne_nil]
  · refine ⟨[], (pdfRun cfg env fn).2.1 ++ str "\n" ++ (pdfRun cfg env fn).2.2 ++
      str "\n" ++ (if md then str "\n--- pandoc log ---\n" ++
        (docxRun cfg env fn).2.1 ++ str "\n" ++ (docxRun cfg env fn).2.2 ++ str "\n"
        else []), ?_⟩
    simp [hmp, List.append_assoc]
  · refine ⟨(if mp then str "\n--- pdflatex log ---\n" ++ (pdfRun cfg env fn).2.1 ++
      str "\n" ++ (pdfRun cfg env fn).2.2 ++ str "\n" else []),
      (docxRun cfg env fn).2.1 ++ str "\n" ++ (docxRun cfg env fn).2.2 ++ str "\n", ?_⟩
    simp [hmd, List.append_assoc]

/-- C6 witness: the containment theorem at an environment in which every
subprocess launch raises. -/
theorem compile_latex_failure_containment_witness :
    (compile_latex_texpro default_config failEnv (str "x") (str "doc.tex")
      true true).pdf = none ∧
    (compile_latex_texpro default_config failEnv (str "x") (str "doc.tex")
      true true).docx = none ∧
    (compile_latex_texpro default_config failEnv (str "x") (str "doc.tex")
      true true).error_summary ≠ [] ∧
    (∃ u v, (compile_latex_texpro default_config failEnv (str "x") (str "doc.tex")
      true true).log = u ++ str "\n--- pdflatex log ---\n" ++ v) ∧
    (∃ u v, (compile_latex_texpro default_config failEnv (str "x") (str "doc.tex")
      true true).log = u ++ str "\n--- pandoc log ---\n" ++ v) := by
  have h := compile_latex_failure_containment default_config failEnv (str "x")
    (str "doc.tex") true true ⟨PyExc.other (str "boom"), rfl⟩
    ⟨PyExc.other (str "boom"), rfl⟩
  exact ⟨h.1, h.2.1, h.2.2.1 rfl, h.2.2.2.1 rfl, h.2.2.2.2 rfl⟩

/-- C7: with wantDocx true the conversion phase always runs — its labeled
log block is appended and the DOCX field is computed from the pandoc
outcome — regardless of the wantPdf flag and of the typesetting outcome;
and a typesetting failure leaves the PDF field absent and the error
summary non-empty without preventing the DOCX phase. -/
theorem compile_latex_docx_independent (cfg : Config) (env : Env)
    (tex fn : Text) (mp : Bool) :
    (∃ u v, (compile_latex_texpro cfg env tex fn mp true).log =
      u ++ str "\n--- pandoc log ---\n" ++ v) ∧
    (compile_latex_texpro cfg env tex fn mp true).docx =
      (if (docxRun cfg env fn).1 && env.docxExists then some env.docxBytes
        else none) ∧
    (mp = true → (pdfRun cfg env fn).1 = false →
      (compile_latex_texpro cfg env tex fn mp true).pdf = none ∧
      (compile_latex_texpro cfg env tex fn mp true).error_summary ≠ []) := by
  rw [compile_latex_texpro_eq]
  refine ⟨?_, by simp, fun hmp hok => ?_⟩
  · refine ⟨(if mp then str "\n--- pdflatex log ---\n" ++ (pdfRun cfg env fn).2.1 ++
      str "\n" ++ (pdfRun cfg env fn).2.2 ++ str "\n" else []),
      (docxRun cfg env fn).2.1 ++ str "\n" ++ (docxRun cfg env fn).2.2 ++ str "\n", ?_⟩
    simp [List.append_assoc]
  · constructor
    · simp [hmp, hok]
    · simp [hmp, hok, extract_latex_error_ne_nil]

/-- C7 witness: the independence theorem at an environment whose
typesetting launch raises. -/
theorem compile_latex_docx_independent_witness :
    (∃ u v, (compile_latex_texpro default_config failEnv (str "y") (str "doc.tex")
      true true).log = u ++ str "\n--- pandoc log ---\n" ++ v) ∧
    (compile_latex_texpro default_config failEnv (str "y") (str "doc.tex")
      true true).docx =
      (if (docxRun default_config failEnv (str "doc.tex")).1 && failEnv.docxExists
        then some failEnv.docxBytes else none) ∧
    ((compile_latex_texpro default_config failEnv (str "y") (str "doc.tex")
      true true).pdf = none ∧
     (compile_latex_texpro default_config failEnv (str "y") (str "doc.tex")
      true true).error_summary ≠ []) := by
  have h := compile_latex_docx_independent default_config failEnv (str "y")
    (str "doc.tex") true
  exact ⟨h.1, h.2.1, h.2.2 rfl (by decide)⟩

/-- C9: the error-summary field is empty unless wantPdf is true and the
typesetting phase took its error branch (run not succeeded or `.pdf`
absent); in particular the DOCX phase never sets it and with wantPdf
false it is always empty. -/
theorem compile_latex_summary_only_pdf_branch (cfg : Config) (env : Env)
    (tex fn : Text) (mp md : Bool) :
    (mp = false → (compile_latex_texpro cfg env tex fn mp md).error_summary = []) ∧
    ((compile_latex_texpro cfg env tex fn mp md).error_summary ≠ [] →
      mp = true ∧ ((pdfRun cfg env fn).1 && env.pdfExists) = false) := by
  rw [compile_latex_texpro_eq]
  constructor
  · intro hmp; simp [hmp]
  · intro hne
    cases mp with
    | false => exact absurd (by simp) hne
    | true =>
      refine ⟨rfl, ?_⟩
      cases hc : (pdfRun cfg env fn).1 && env.pdfExists with
      | false => rfl
      | true => exact absurd (by simp [hc]) hne

/-- C9 witness: with wantPdf false the error summary of a concrete
compilation is empty. -/
theorem compile_latex_summary_only_pdf_branch_witness :
    (compile_latex_texpro default_config okEnvNoPdf (str "x") (str "doc.tex")
      false true).error_summary = [] :=
  (compile_latex_summary_only_pdf_branch default_config okEnvNoPdf (str "x")
    (str "doc.tex") false true).1 rfl

/-- C10: the two variants agree on their shared core.  The two
`run_command` functions are extensionally equal; and whenever the texpro
session configuration equals the app variant's fixed tool paths and
flags, the two `compile_latex` functions return equal PDF, DOCX and log
fields on every input and environment. -/
theorem variants_equivalent :
    (∀ (cmd : List Text) (cwd : Text) (t : Nat)
      (o : Except PyExc (Int × Text × Text)),
      run_command_texpro cmd cwd t o = run_command_app cmd cwd t o) ∧
    (∀ (cfg : Config) (env : Env) (tex fn : Text) (mp md : Bool),
      cfg.miktex_path = MIKTEX_PATH →
      cfg.pandoc_path = PANDOC_PATH →
      pySplit cfg.pdflatex_flags =
        [str "-interaction=nonstopmode", str "-halt-on-error"] →
      (compile_latex_texpro cfg env tex fn mp md).pdf =
        (compile_latex_app env tex fn mp md).pdf ∧
      (compile_latex_texpro cfg env tex fn mp md).docx =
        (compile_latex_app env tex fn mp md).docx ∧
      (compile_latex_texpro cfg env tex fn mp md).log =
        (compile_latex_app env tex fn mp md).log) := by
  have hrun : ∀ (cmd : List Text) (cwd : Text) (t : Nat)
      (o : Except PyExc (Int × Text × Text)),
      run_command_texpro cmd cwd t o = run_command_app cmd cwd t o := by
    intro cmd cwd t o
    rcases o with e | v
    · cases e <;> rfl
    · rcases v with ⟨rc, out, err⟩; rfl
  refine ⟨hrun, ?_⟩
  intro cfg env tex fn mp md h1 h2 h3
  have hc1 : pdf_cmd cfg fn = app_pdf_cmd fn := by
    unfold pdf_cmd app_pdf_cmd
    rw [h1, h3]
    rfl
  have hc2 : docx_cmd cfg fn = app_docx_cmd fn := by
    unfold docx_cmd app_docx_cmd
    rw [h2]
  have hpr : pdfRun cfg env fn = pdfRunApp env fn := by
    unfold pdfRun pdfRunApp
    rw [hc1, hrun]
  have hdrn : docxRun cfg env fn = docxRunApp env fn := by
    unfold docxRun docxRunApp
    rw [hc2, hrun]
  rw [compile_latex_texpro_eq, compile_latex_app_eq, hpr, hdrn]
  exact ⟨rfl, rfl, rfl⟩

/-- C10 witness: the equivalence at a concrete outcome and at the default
session configuration, which equals the app variant's fixed paths and
flags. -/
theorem variants_equivalent_witness :
    run_command_texpro [] [] 120 (Except.error PyExc.timeoutExpired) =
      run_command_app [] [] 120 (Except.error PyExc.timeoutExpired) ∧
    (compile_latex_texpro default_config okEnvNoPdf (str "x") (str "doc.tex")
      true true).pdf =
      (compile_latex_app okEnvNoPdf (str "x") (str "doc.tex") true true).pdf ∧
    (compile_latex_texpro default_config okEnvNoPdf (str "x") (str "doc.tex")
      true true).docx =
      (compile_latex_app okEnvNoPdf (str "x") (str "doc.tex") true true).docx ∧
    (compile_latex_texpro default_config okEnvNoPdf (str "x") (str "doc.tex")
      true true).log =
      (compile_latex_app okEnvNoPdf (str "x") (str "doc.tex") true true).log :=
  ⟨variants_equivalent.1 [] [] 120 (Except.error PyExc.timeoutExpired),
    variants_equivalent.2 default_config okEnvNoPdf (str "x") (str "doc.tex")
      true true rfl rfl (by decide)⟩

end TexConv
